import Mathlib

/-!
Shallow embedding of the vacancy ingestion subsystem of the `hhanalyse`
repository: the record model (`models.py`), the HTML-to-Markdown enricher
(`html_to_markdown.py`), the local SQLite store (`storage.py`) and the fetch
orchestrator (`fetch_vacancies.py`).

Modelling conventions:
  * JSON-valued columns (address, work_format, specializations, ...) are
    carried around as their serialized `String` form (`Option String`), since
    the store only passes them through `json.dumps` unchanged in shape.
  * `datetime` values are modelled as `Nat` ticks.
  * Python `x or default` on an integer/str argument is modelled by
    `pyOr`-style helpers: `None` and falsy values (0, "") select the default.
  * SQLite semantics used by the code: `INSERT OR REPLACE` on a primary key
    deletes any row with the same key and appends the new row; a plain
    `INSERT` into `vacancy_skills` fails when the `UNIQUE(vacancy_id,
    skill_name)` pair is already present; each `with sqlite3.connect(...)`
    block is one transaction, committed on normal exit and rolled back when an
    exception escapes the block.
  * The external conversion libraries (`html2text`, `markdownify`,
    `BeautifulSoup`) are parameters (`Backends`): an optional total rendering
    function models "library importable, `handle` + regex post-processing",
    mirroring the module-level `try: import ... except ImportError` guards.
-/

/-- Model of `models.Area`. -/
structure Area where
  id : String
  name : String
  url : Option String
deriving Repr, DecidableEq

/-- Model of `models.Salary`; the source fields `from` (aliased `from_`) and `to` are
Lean keywords, hence the trailing underscores. -/
structure Salary where
  from_ : Option Int
  to_ : Option Int
  currency : Option String
  gross : Option Bool
deriving Repr, DecidableEq

/-- Model of `models.Experience`. -/
structure Experience where
  id : String
  name : String
deriving Repr, DecidableEq

/-- Model of `models.Schedule`. -/
structure Schedule where
  id : String
  name : String
deriving Repr, DecidableEq

/-- Model of `models.Employment`. -/
structure Employment where
  id : String
  name : String
deriving Repr, DecidableEq

/-- Model of `models.KeySkill`. -/
structure KeySkill where
  name : String
deriving Repr, DecidableEq

/-- Model of `models.Employer`; `logo_urls` is carried as its JSON serialization. -/
structure Employer where
  id : String
  name : String
  url : Option String
  alternate_url : Option String
  logo_urls : Option String
  vacancies_url : Option String
  accredited_it_employer : Option Bool
  trusted : Option Bool
deriving Repr, DecidableEq

/-- Model of `models.VacancyType`. -/
structure VacancyType where
  id : String
  name : String
deriving Repr, DecidableEq

/-- Model of `models.BillingType`. -/
structure BillingType where
  id : String
  name : String
deriving Repr, DecidableEq

/-- Model of `models.Vacancy` (validated record). dict/list-typed fields are their
JSON serializations; datetimes are `Nat` ticks. -/
structure Vacancy where
  id : String
  name : String
  area : Area
  salary : Option Salary
  salary_range : Option String
  type : VacancyType
  address : Option String
  experience : Experience
  schedule : Schedule
  employment : Employment
  description : Option String
  branded_description : Option String
  key_skills : List KeySkill
  employer : Employer
  published_at : Nat
  created_at : Nat
  expires_at : Option Nat
  premium : Option Bool
  billing_type : Option BillingType
  work_format : Option String
  alternate_url : Option String
  apply_alternate_url : Option String
  response_url : Option String
  allow_messages : Option Bool
  show_contacts : Option Bool
  contacts : Option String
  response_letter_required : Option Bool
  archived : Option Bool
  accept_handicapped : Option Bool
  accept_kids : Option Bool
  specializations : Option String
  professional_roles : Option String
  working_days : Option String
  working_time_intervals : Option String
  working_time_modes : Option String
  insider_interview : Option String
  vacancy_constructor_template : Option String
  relations : Option String
  department : Option String
  fetched_at : Option Nat
  raw_json : Option String
deriving Repr, DecidableEq

/-- Raw decoded JSON payload as handed to `Vacancy(**api_data)`:
every pydantic-required field is optional here, and validation checks
presence. `key_skills` defaults to `[]` when absent, as in `models.py`. -/
structure RawPayload where
  id : Option String
  name : Option String
  area : Option Area
  salary : Option Salary
  salary_range : Option String
  type : Option VacancyType
  address : Option String
  experience : Option Experience
  schedule : Option Schedule
  employment : Option Employment
  description : Option String
  branded_description : Option String
  key_skills : List KeySkill
  employer : Option Employer
  published_at : Option Nat
  created_at : Option Nat
  expires_at : Option Nat
  premium : Option Bool
  billing_type : Option BillingType
  work_format : Option String
  alternate_url : Option String
  apply_alternate_url : Option String
  response_url : Option String
  allow_messages : Option Bool
  show_contacts : Option Bool
  contacts : Option String
  response_letter_required : Option Bool
  archived : Option Bool
  accept_handicapped : Option Bool
  accept_kids : Option Bool
  specializations : Option String
  professional_roles : Option String
  working_days : Option String
  working_time_intervals : Option String
  working_time_modes : Option String
  insider_interview : Option String
  vacancy_constructor_template : Option String
  relations : Option String
  department : Option String
  fetched_at : Option Nat
deriving Repr, DecidableEq

/-- pydantic: a missing required field raises a `ValidationError` naming it. -/
def requireField {α : Type} (fld : String) (o : Option α) : Except String α :=
  match o with
  | some a => Except.ok a
  | none => Except.error ("field required: " ++ fld)

/-- Embedding of `Vacancy(**api_data)`: checks all pydantic-required fields
(`id, name, area, type, experience, schedule, employment, employer,
published_at, created_at`) and passes the optional ones through. -/
def parseVacancy (p : RawPayload) : Except String Vacancy := do
  let id ← requireField "id" p.id
  let name ← requireField "name" p.name
  let area ← requireField "area" p.area
  let ty ← requireField "type" p.type
  let experience ← requireField "experience" p.experience
  let schedule ← requireField "schedule" p.schedule
  let employment ← requireField "employment" p.employment
  let employer ← requireField "employer" p.employer
  let published_at ← requireField "published_at" p.published_at
  let created_at ← requireField "created_at" p.created_at
  Except.ok
    { id := id, name := name, area := area, salary := p.salary
      salary_range := p.salary_range, type := ty, address := p.address
      experience := experience, schedule := schedule, employment := employment
      description := p.description, branded_description := p.branded_description
      key_skills := p.key_skills, employer := employer
      published_at := published_at, created_at := created_at
      expires_at := p.expires_at, premium := p.premium
      billing_type := p.billing_type, work_format := p.work_format
      alternate_url := p.alternate_url
      apply_alternate_url := p.apply_alternate_url
      response_url := p.response_url, allow_messages := p.allow_messages
      show_contacts := p.show_contacts, contacts := p.contacts
      response_letter_required := p.response_letter_required
      archived := p.archived, accept_handicapped := p.accept_handicapped
      accept_kids := p.accept_kids, specializations := p.specializations
      professional_roles := p.professional_roles
      working_days := p.working_days
      working_time_intervals := p.working_time_intervals
      working_time_modes := p.working_time_modes
      insider_interview := p.insider_interview
      vacancy_constructor_template := p.vacancy_constructor_template
      relations := p.relations, department := p.department
      fetched_at := p.fetched_at, raw_json := none }

/-! ## html_to_markdown.py -/

/-- Availability and behavior of the conversion backends. A `some f` models
an importable library whose whole conversion pipeline (including the in-file
`clean_html` pre-pass and regex post-processing) renders HTML to Markdown via
the total function `f`; `none` models a failed `import`. `simple` uses
`BeautifulSoup`, imported unconditionally. -/
structure Backends where
  html2text : Option (String → String)
  markdownify : Option (String → String)
  simple : String → String

/-- Embedding of `html_to_markdown_html2text`: falls back to the original text (or `""`)
when the input is falsy or `html2text` is not importable. -/
def html_to_markdown_html2text (b : Backends) (html_text : String) : String :=
  if html_text = "" then ""
  else
    match b.html2text with
    | none => html_text
    | some h => h html_text

/-- Embedding of `html_to_markdown_markdownify`: same falsy/import fallback. -/
def html_to_markdown_markdownify (b : Backends) (html_text : String) : String :=
  if html_text = "" then ""
  else
    match b.markdownify with
    | none => html_text
    | some h => h html_text

/-- Embedding of `html_to_markdown_simple` (BeautifulSoup based). -/
def html_to_markdown_simple (b : Backends) (html_text : String) : String :=
  if html_text = "" then "" else b.simple html_text

/-- Embedding of `convert_html_to_markdown(html_text, method)`. Empty input returns `""`
before method dispatch; `auto` prefers `html2text`, then `markdownify`, then
`simple`; an unknown method raises `ValueError` (modelled as `Except.error`).
-/
def convert_html_to_markdown (b : Backends) (html_text : String)
    (method : String) : Except String String :=
  if html_text = "" then Except.ok ""
  else if method = "auto" then
    match b.html2text with
    | some _ => Except.ok (html_to_markdown_html2text b html_text)
    | none =>
      match b.markdownify with
      | some _ => Except.ok (html_to_markdown_markdownify b html_text)
      | none => Except.ok (html_to_markdown_simple b html_text)
  else if method = "html2text" then
    Except.ok (html_to_markdown_html2text b html_text)
  else if method = "markdownify" then
    Except.ok (html_to_markdown_markdownify b html_text)
  else if method = "simple" then
    Except.ok (html_to_markdown_simple b html_text)
  else Except.error ("Unknown method: " ++ method)

/-! ## storage.py -/

/-- One row of the `employers` table (the columns written by
`save_employer`; `created_at` has a SQL-side default and is not written). -/
structure EmployerRow where
  id : String
  name : String
  url : Option String
  alternate_url : Option String
  logo_urls : Option String
  vacancies_url : Option String
  accredited_it_employer : Option Bool
  trusted : Option Bool
deriving Repr, DecidableEq

/-- One row of the `vacancies` table, column for column. -/
structure VacancyRow where
  id : String
  name : String
  description : Option String
  description_markdown : Option String
  branded_description : Option String
  branded_description_markdown : Option String
  area_id : String
  area_name : String
  area_url : Option String
  salary_from : Option Int
  salary_to : Option Int
  salary_currency : Option String
  salary_gross : Option Bool
  salary_range : Option String
  experience_id : String
  experience_name : String
  schedule_id : String
  schedule_name : String
  employment_id : String
  employment_name : String
  employer_id : String
  address : Option String
  type_id : String
  type_name : String
  billing_type_id : Option String
  billing_type_name : Option String
  alternate_url : Option String
  apply_alternate_url : Option String
  response_url : Option String
  work_format : Option String
  working_days : Option String
  working_time_intervals : Option String
  working_time_modes : Option String
  allow_messages : Option Bool
  show_contacts : Option Bool
  contacts : Option String
  response_letter_required : Option Bool
  premium : Option Bool
  archived : Option Bool
  accept_handicapped : Option Bool
  accept_kids : Option Bool
  specializations : Option String
  professional_roles : Option String
  published_at : Nat
  created_at : Nat
  expires_at : Option Nat
  fetched_at : Nat
  insider_interview : Option String
  vacancy_constructor_template : Option String
  relations : Option String
  department : Option String
  raw_json : Option String
deriving Repr, DecidableEq

/-- One row of `vacancy_skills` (ignoring the surrogate autoincrement id,
which carries no information the claims mention). -/
structure SkillRow where
  vacancy_id : String
  skill_name : String
deriving Repr, DecidableEq

/-- The three tables of the SQLite database. -/
structure DB where
  employers : List EmployerRow
  vacancies : List VacancyRow
  vacancy_skills : List SkillRow
deriving Repr, DecidableEq

def emptyDB : DB := ⟨[], [], []⟩

/-- Semantics of `INSERT OR REPLACE INTO employers`: drop any row with this primary key,
append the new row. -/
def insertOrReplaceEmployer (tbl : List EmployerRow) (r : EmployerRow) :
    List EmployerRow :=
  tbl.filter (fun x => x.id ≠ r.id) ++ [r]

/-- Semantics of `INSERT OR REPLACE INTO vacancies`. -/
def insertOrReplaceVacancy (tbl : List VacancyRow) (r : VacancyRow) :
    List VacancyRow :=
  tbl.filter (fun x => x.id ≠ r.id) ++ [r]

/-- The row `save_employer` writes for an `Employer`. -/
def employerRowOf (e : Employer) : EmployerRow :=
  { id := e.id, name := e.name, url := e.url, alternate_url := e.alternate_url
    logo_urls := e.logo_urls, vacancies_url := e.vacancies_url
    accredited_it_employer := e.accredited_it_employer, trusted := e.trusted }

/-- Embedding of `VacancyStorage.save_employer`: its own connection, committed on return. -/
def save_employer (db : DB) (e : Employer) : DB :=
  { db with employers := insertOrReplaceEmployer db.employers (employerRowOf e) }

/-- Embedding of `convert_html_to_markdown(field) if field else None` as written at
storage.py lines 197-198 (Python truthiness: `Some ""` is falsy too). -/
def optConvert (b : Backends) (od : Option String) :
    Except String (Option String) :=
  match od with
  | none => Except.ok none
  | some d =>
    if d = "" then Except.ok none
    else (convert_html_to_markdown b d "auto").map some

/-- The `auto`-method conversion as a total function (the dispatcher never
raises on `method="auto"`; proved below in `convert_auto_ok`). -/
def autoConvert (b : Backends) (t : String) : String :=
  match b.html2text with
  | some _ => html_to_markdown_html2text b t
  | none =>
    match b.markdownify with
    | some _ => html_to_markdown_markdownify b t
    | none => html_to_markdown_simple b t

/-- Total form of `optConvert` (see `optConvert_eq`). -/
def mdOf (b : Backends) (od : Option String) : Option String :=
  match od with
  | none => none
  | some d => if d = "" then none else some (autoConvert b d)

/-- The `vacancies` row built by the big INSERT in `save_vacancy`, given the
already-computed Markdown renderings (`fetched_at` is
`vacancy.fetched_at or datetime.now()`). -/
def mkVacancyRow (dmd bmd : Option String) (now : Nat) (v : Vacancy)
    (raw_json : Option String) : VacancyRow :=
  { id := v.id, name := v.name, description := v.description
    description_markdown := dmd
    branded_description := v.branded_description
    branded_description_markdown := bmd
    area_id := v.area.id, area_name := v.area.name, area_url := v.area.url
    salary_from := v.salary.bind (fun s => s.from_)
    salary_to := v.salary.bind (fun s => s.to_)
    salary_currency := v.salary.bind (fun s => s.currency)
    salary_gross := v.salary.bind (fun s => s.gross)
    salary_range := v.salary_range
    experience_id := v.experience.id, experience_name := v.experience.name
    schedule_id := v.schedule.id, schedule_name := v.schedule.name
    employment_id := v.employment.id, employment_name := v.employment.name
    employer_id := v.employer.id, address := v.address
    type_id := v.type.id, type_name := v.type.name
    billing_type_id := v.billing_type.map (fun bt => bt.id)
    billing_type_name := v.billing_type.map (fun bt => bt.name)
    alternate_url := v.alternate_url
    apply_alternate_url := v.apply_alternate_url
    response_url := v.response_url
    work_format := v.work_format, working_days := v.working_days
    working_time_intervals := v.working_time_intervals
    working_time_modes := v.working_time_modes
    allow_messages := v.allow_messages, show_contacts := v.show_contacts
    contacts := v.contacts
    response_letter_required := v.response_letter_required
    premium := v.premium, archived := v.archived
    accept_handicapped := v.accept_handicapped, accept_kids := v.accept_kids
    specializations := v.specializations
    professional_roles := v.professional_roles
    published_at := v.published_at, created_at := v.created_at
    expires_at := v.expires_at, fetched_at := v.fetched_at.getD now
    insider_interview := v.insider_interview
    vacancy_constructor_template := v.vacancy_constructor_template
    relations := v.relations, department := v.department
    raw_json := raw_json }

/-- The row `save_vacancy` actually stores: `mkVacancyRow` with the Markdown
columns produced by the `auto` conversion of the two description fields. -/
def vacancyRowOf (b : Backends) (now : Nat) (v : Vacancy)
    (raw_json : Option String) : VacancyRow :=
  mkVacancyRow (mdOf b v.description) (mdOf b v.branded_description) now v raw_json

/-- The plain-`INSERT` loop over `vacancy.key_skills`: fails (SQLite
`IntegrityError`) when `UNIQUE(vacancy_id, skill_name)` is violated. -/
def insertSkills (vid : String) (skills : List KeySkill)
    (tbl : List SkillRow) : Except String (List SkillRow) :=
  match skills with
  | [] => Except.ok tbl
  | s :: rest =>
    if tbl.any (fun r => r.vacancy_id = vid ∧ r.skill_name = s.name) then
      Except.error "UNIQUE constraint failed: vacancy_skills"
    else insertSkills vid rest (tbl ++ [⟨vid, s.name⟩])

/-- The transaction body of `save_vacancy` (the `with sqlite3.connect`
block): Markdown conversion, `INSERT OR REPLACE` of the vacancy row,
`DELETE FROM vacancy_skills WHERE vacancy_id = ?`, then one plain `INSERT`
per skill. An error anywhere rolls the whole block back. -/
def save_vacancy_txn (b : Backends) (now : Nat) (db : DB) (v : Vacancy)
    (raw_json : Option String) : Except String DB := do
  let dmd ← optConvert b v.description
  let bmd ← optConvert b v.branded_description
  let row : VacancyRow := mkVacancyRow dmd bmd now v raw_json
  let vacs := insertOrReplaceVacancy db.vacancies row
  let cleared := db.vacancy_skills.filter (fun r => r.vacancy_id ≠ v.id)
  let skills ← insertSkills v.id v.key_skills cleared
  Except.ok { db with vacancies := vacs, vacancy_skills := skills }

/-- Embedding of `VacancyStorage.save_vacancy`. The employer is saved first on a separate
connection (already committed); then the vacancy transaction runs. On an
exception the transaction is rolled back and the exception re-raised
(returned as `some message`), leaving the employer write in place. -/
def save_vacancy (b : Backends) (now : Nat) (db : DB) (v : Vacancy)
    (raw_json : Option String) : DB × Option String :=
  let db1 := save_employer db v.employer
  match save_vacancy_txn b now db1 v raw_json with
  | Except.ok db2 => (db2, none)
  | Except.error e => (db1, some e)

/-- Embedding of `VacancyStorage.vacancy_exists`. -/
def vacancy_exists (db : DB) (vacancy_id : String) : Bool :=
  db.vacancies.any (fun r => r.id = vacancy_id)

/-- Embedding of `VacancyStorage.get_processed_vacancy_ids`: `SELECT id FROM vacancies`. -/
def get_processed_vacancy_ids (db : DB) : List String :=
  db.vacancies.map (fun r => r.id)

/-! ## fetch_vacancies.py -/

/-- One HTTP response from the remote API, as discriminated by
`fetch_vacancy`: 200 with a decoded JSON payload, 404, 429, another status
code, or a network-level timeout. -/
inductive FetchResponse where
  | ok (payload : RawPayload)
  | notFound
  | rateLimited
  | otherStatus (code : Nat)
  | timeout
deriving Repr, DecidableEq

/-- Embedding of `VacancyFetcher.fetch_vacancy` over the stream of responses the remote
gives to the successive requests for one id. Returns the parsed payload (or
`none` for 404/other/timeout) together with the number of HTTP requests
made. On 429 the code sleeps and recurses on the same id, consuming the next
response; the `[]` case models exhaustion of the (finite) modelled stream —
the real recursion never returns while the remote keeps answering 429. -/
def fetch_vacancy : List FetchResponse → Option RawPayload × Nat
  | [] => (none, 0)
  | FetchResponse.ok p :: _ => (some p, 1)
  | FetchResponse.notFound :: _ => (none, 1)
  | FetchResponse.rateLimited :: rest =>
    let r := fetch_vacancy rest
    (r.1, r.2 + 1)
  | FetchResponse.otherStatus _ :: _ => (none, 1)
  | FetchResponse.timeout :: _ => (none, 1)

/-- Stand-in for `json.dumps(api_data, ...)`: the store treats the raw JSON
string as opaque, so only its existence matters to any claim. -/
def encodeRaw (p : RawPayload) : String :=
  String.intercalate "|" [p.id.getD "", p.name.getD ""]

/-- One artifact written by `save_failed_vacancy` to
`failed_vacancies/{id}.json`: offending id, error text, timestamp, and the
raw payload. -/
structure FailedRecord where
  vacancy_id : String
  error : String
  timestamp : Nat
  data : RawPayload
deriving Repr, DecidableEq

/-- Embedding of `VacancyFetcher.save_failed_vacancy` (the side channel as a list). -/
def save_failed_vacancy (store : List FailedRecord) (vacancy_id : String)
    (data : RawPayload) (error : String) (now : Nat) : List FailedRecord :=
  store ++ [⟨vacancy_id, error, now, data⟩]

/-- Database plus failed-record side channel. -/
structure FetchState where
  db : DB
  failed : List FailedRecord
deriving Repr, DecidableEq

/-- Embedding of `VacancyFetcher.process_vacancy`: fetch, validate (side-storing the
payload and error on a validation failure), then save. Returns the success
flag, the number of HTTP requests made, and the new state. A storage
exception is caught by the outer `try` and yields `False` with the
post-rollback database. -/
def process_vacancy (b : Backends) (now : Nat) (st : FetchState)
    (vid : String) (responses : List FetchResponse) :
    Bool × Nat × FetchState :=
  let fr := fetch_vacancy responses
  match fr.1 with
  | none => (false, fr.2, st)
  | some p =>
    match parseVacancy p with
    | Except.error e =>
      (false, fr.2, ⟨st.db, save_failed_vacancy st.failed vid p e now⟩)
    | Except.ok v0 =>
      let v := { v0 with fetched_at := some now }
      let sv := save_vacancy b now st.db v (some (encodeRaw p))
      (sv.2.isNone, fr.2, ⟨sv.1, st.failed⟩)

/-- Embedding of `VacancyFetcher.filter_new_vacancies`: keep only ids not already in the
store, preserving order. -/
def filter_new_vacancies (db : DB) (vacancy_ids : List String) :
    List String :=
  vacancy_ids.filter (fun vid => ¬ (get_processed_vacancy_ids db).contains vid)

/-- Python `x or default` for an optional integer argument: `None` and `0`
are falsy and select the default. -/
def pyOrInt (o : Option Int) (d : Int) : Int :=
  match o with
  | none => d
  | some v => if v = 0 then d else v

/-- Observable outcome of `VacancyFetcher.run`: the ids selected for
processing (after range, resume and max filtering — exactly the ids that get
network requests), the final success/failure counts, the per-id request-count
log, and the final state. -/
structure RunResult where
  selected : List String
  successful : Nat
  failed : Nat
  requests : List (String × Nat)
  state : FetchState
deriving Repr, DecidableEq

/-- The sequential per-id loop at the end of `run`. -/
def runLoop (b : Backends) (now : Nat) (remote : String → List FetchResponse) :
    List String → FetchState → Nat × Nat × List (String × Nat) × FetchState
  | [], st => (0, 0, [], st)
  | vid :: rest, st =>
    let p := process_vacancy b now st vid (remote vid)
    let r := runLoop b now remote rest p.2.2
    (if p.1 then r.1 + 1 else r.1,
     if p.1 then r.2.1 else r.2.1 + 1,
     (vid, p.2.1) :: r.2.2.1,
     r.2.2.2)

/-- Embedding of `VacancyFetcher.run`: optional `[start:end)` range selection (validated
with a `ValueError` — note `end_index or len` treats an explicit `0` as
unsupplied), then resume filtering, then the `max_vacancies` cap (`if
max_vacancies:` treats an explicit `0` as unsupplied), then the sequential
fetch loop. A validation error is raised before any network request. -/
def run (b : Backends) (now : Nat) (remote : String → List FetchResponse)
    (ids0 : List String) (db : DB) (resume : Bool)
    (max_vacancies : Option Nat) (start_index end_index : Option Int) :
    Except String RunResult := do
  let ids1 ←
    if start_index.isSome || end_index.isSome then
      let start_idx := pyOrInt start_index 0
      let end_idx := pyOrInt end_index (ids0.length : Int)
      if start_idx < 0 || start_idx ≥ (ids0.length : Int) then
        Except.error "start_index out of range"
      else if end_idx < start_idx || end_idx > (ids0.length : Int) then
        Except.error "end_index must be >= start_index and <= list length"
      else
        Except.ok ((ids0.drop start_idx.toNat).take (end_idx - start_idx).toNat)
    else Except.ok ids0
  let ids2 := if resume then filter_new_vacancies db ids1 else ids1
  let ids3 :=
    match max_vacancies with
    | some m => if m ≠ 0 then ids2.take m else ids2
    | none => ids2
  let r := runLoop b now remote ids3 ⟨db, []⟩
  Except.ok ⟨ids3, r.1, r.2.1, r.2.2.1, r.2.2.2⟩

/-- Ids selected (and fetched) by a `run`, `none` when `run` raised. -/
def runSelected (b : Backends) (now : Nat)
    (remote : String → List FetchResponse) (ids0 : List String) (db : DB)
    (resume : Bool) (max_vacancies : Option Nat)
    (start_index end_index : Option Int) : Option (List String) :=
  (run b now remote ids0 db resume max_vacancies start_index end_index).toOption.map
    (fun r => r.selected)

/-- Final (successful, failed) counts of a `run`. -/
def runReport (b : Backends) (now : Nat)
    (remote : String → List FetchResponse) (ids0 : List String) (db : DB)
    (resume : Bool) (max_vacancies : Option Nat)
    (start_index end_index : Option Int) : Option (Nat × Nat) :=
  (run b now remote ids0 db resume max_vacancies start_index end_index).toOption.map
    (fun r => (r.successful, r.failed))

/-- Final database of a `run`. -/
def runStore (b : Backends) (now : Nat)
    (remote : String → List FetchResponse) (ids0 : List String) (db : DB)
    (resume : Bool) (max_vacancies : Option Nat)
    (start_index end_index : Option Int) : Option DB :=
  (run b now remote ids0 db resume max_vacancies start_index end_index).toOption.map
    (fun r => r.state.db)

/-- Final failed-record side channel of a `run`. -/
def runFailedStore (b : Backends) (now : Nat)
    (remote : String → List FetchResponse) (ids0 : List String) (db : DB)
    (resume : Bool) (max_vacancies : Option Nat)
    (start_index end_index : Option Int) : Option (List FailedRecord) :=
  (run b now remote ids0 db resume max_vacancies start_index end_index).toOption.map
    (fun r => r.state.failed)

/-- Per-id HTTP request log of a `run`. -/
def runRequests (b : Backends) (now : Nat)
    (remote : String → List FetchResponse) (ids0 : List String) (db : DB)
    (resume : Bool) (max_vacancies : Option Nat)
    (start_index end_index : Option Int) : Option (List (String × Nat)) :=
  (run b now remote ids0 db resume max_vacancies start_index end_index).toOption.map
    (fun r => r.requests)


/-! ## Concrete fixtures used by witnesses and scenario theorems -/

/-- Backend configuration for concrete scenarios: `html2text` importable with
a marker rendering, `markdownify` absent. -/
def bTest : Backends :=
  ⟨some (fun s => String.append "md:" s), none, fun s => s⟩

/-- A fully populated raw payload carrying the same data as a validated
record: every required field is present. -/
def payloadOf (v : Vacancy) : RawPayload :=
  { id := some v.id, name := some v.name, area := some v.area
    salary := v.salary, salary_range := v.salary_range, type := some v.type
    address := v.address, experience := some v.experience
    schedule := some v.schedule, employment := some v.employment
    description := v.description
    branded_description := v.branded_description
    key_skills := v.key_skills, employer := some v.employer
    published_at := some v.published_at, created_at := some v.created_at
    expires_at := v.expires_at, premium := v.premium
    billing_type := v.billing_type, work_format := v.work_format
    alternate_url := v.alternate_url
    apply_alternate_url := v.apply_alternate_url
    response_url := v.response_url, allow_messages := v.allow_messages
    show_contacts := v.show_contacts, contacts := v.contacts
    response_letter_required := v.response_letter_required
    archived := v.archived, accept_handicapped := v.accept_handicapped
    accept_kids := v.accept_kids, specializations := v.specializations
    professional_roles := v.professional_roles
    working_days := v.working_days
    working_time_intervals := v.working_time_intervals
    working_time_modes := v.working_time_modes
    insider_interview := v.insider_interview
    vacancy_constructor_template := v.vacancy_constructor_template
    relations := v.relations, department := v.department
    fetched_at := v.fetched_at }

/-- A minimal valid vacancy record used as the base of all fixtures. -/
def vacBase : Vacancy :=
  { id := "0", name := "Developer"
    area := ⟨"113", "Russia", none⟩
    salary := none, salary_range := none
    type := ⟨"open", "Open"⟩
    address := none
    experience := ⟨"noExperience", "No experience"⟩
    schedule := ⟨"fullDay", "Full day"⟩
    employment := ⟨"full", "Full time"⟩
    description := none, branded_description := none
    key_skills := []
    employer := ⟨"e1", "Acme", none, none, none, none, none, none⟩
    published_at := 100, created_at := 100, expires_at := none
    premium := none, billing_type := none, work_format := none
    alternate_url := none, apply_alternate_url := none, response_url := none
    allow_messages := none, show_contacts := none, contacts := none
    response_letter_required := none
    archived := none, accept_handicapped := none, accept_kids := none
    specializations := none, professional_roles := none
    working_days := none, working_time_intervals := none
    working_time_modes := none
    insider_interview := none, vacancy_constructor_template := none
    relations := none, department := none
    fetched_at := none, raw_json := none }

/-- The base vacancy with a given id. -/
def vacOf (i : String) : Vacancy := { vacBase with id := i }

/-- A full valid payload for a given id. -/
def payOf (i : String) : RawPayload := payloadOf (vacOf i)

/-- A payload that fails validation: the required `experience` sub-object is
missing. -/
def badPayload : RawPayload := { payOf "2" with experience := none }

/-- A vacancy with a non-empty description, for enricher scenarios. -/
def vacDesc : Vacancy := { vacBase with id := "v7", description := some "x" }

/-- A vacancy whose skill list is `["Python"]`. -/
def vacPy : Vacancy := { vacBase with id := "v2", key_skills := [⟨"Python"⟩] }

/-- The same vacancy id re-fetched with skill list `["Go", "Rust"]`. -/
def vacGoRust : Vacancy :=
  { vacBase with id := "v2", key_skills := [⟨"Go"⟩, ⟨"Rust"⟩] }

/-- A vacancy whose skill list repeats the same name twice (accepted by the
validator, rejected by the skills UNIQUE constraint). -/
def vacDup : Vacancy :=
  { vacBase with id := "v10", key_skills := [⟨"Python"⟩, ⟨"Python"⟩] }

/-- The id `v2` re-fetched with the duplicated skill list `["Go", "Go"]`:
validated, but its save raises on the UNIQUE constraint. -/
def vacGoGo : Vacancy :=
  { vacBase with id := "v2", key_skills := [⟨"Go"⟩, ⟨"Go"⟩] }

/-- A remote that answers every id with a full valid payload. -/
def remoteOkAll : String → List FetchResponse :=
  fun vid => [FetchResponse.ok (payOf vid)]

/-- A remote that answers every id with 404. -/
def remoteNF : String → List FetchResponse :=
  fun _ => [FetchResponse.notFound]

/-- A remote where id "1" is valid and every other id yields 404. -/
def remote404 : String → List FetchResponse :=
  fun vid => if vid = "1" then [FetchResponse.ok (payOf "1")]
             else [FetchResponse.notFound]

/-- A remote where id "1" is valid and every other id yields a payload that
fails validation. -/
def remoteInvalid : String → List FetchResponse :=
  fun vid => if vid = "1" then [FetchResponse.ok (payOf "1")]
             else [FetchResponse.ok badPayload]

/-- A remote where id "2" fails validation and all other ids are valid. -/
def remoteMix : String → List FetchResponse :=
  fun vid => if vid = "2" then [FetchResponse.ok badPayload]
             else [FetchResponse.ok (payOf vid)]

/-- A store already containing vacancies "A" and "B". -/
def dbAB : DB :=
  ⟨[], [vacancyRowOf bTest 0 (vacOf "A") none,
        vacancyRowOf bTest 0 (vacOf "B") none], []⟩

/-! ## Lemmas about the store -/

/-- After an insert-or-replace on a key, the rows with that key are exactly
the new row. -/
theorem filter_upsert {α : Type} (key : α → String) (tbl : List α) (r : α) :
    ((tbl.filter (fun x => key x ≠ key r) ++ [r]).filter
      (fun x => key x = key r)) = [r] := by
  rw [List.filter_append, List.filter_filter]
  have h1 : ∀ a, (decide (key a = key r) && decide (key a ≠ key r)) = false := by
    intro a
    by_cases h : key a = key r <;> simp [h]
  have h2 : List.filter (fun a => decide (key a = key r) && decide (key a ≠ key r)) tbl = [] := by
    apply List.filter_eq_nil_iff.mpr
    intro a _
    simp [h1 a]
  rw [h2]
  simp

/-- The `auto` conversion method never raises. -/
theorem convert_auto_ok (b : Backends) (t : String) :
    convert_html_to_markdown b t "auto" =
      Except.ok (if t = "" then "" else autoConvert b t) := by
  unfold convert_html_to_markdown autoConvert
  by_cases h : t = ""
  · simp [h]
  · simp only [h, if_false, if_true, reduceIte]
    cases b.html2text <;> cases b.markdownify <;> simp

/-- The conversion performed inside `save_vacancy` is total. -/
theorem optConvert_eq (b : Backends) (od : Option String) :
    optConvert b od = Except.ok (mdOf b od) := by
  cases od with
  | none => rfl
  | some d =>
    unfold optConvert mdOf
    by_cases h : d = ""
    · simp [h]
    · simp [h, convert_auto_ok, Except.map]

/-- The `save_vacancy` transaction reduces to the skill-insert loop applied
after the vacancy upsert and the skill delete. -/
theorem save_vacancy_txn_eq (b : Backends) (now : Nat) (db : DB) (v : Vacancy)
    (raw : Option String) :
    save_vacancy_txn b now db v raw =
      (insertSkills v.id v.key_skills
          (db.vacancy_skills.filter (fun r => r.vacancy_id ≠ v.id))).map
        (fun sk =>
          { db with
              vacancies :=
                insertOrReplaceVacancy db.vacancies (vacancyRowOf b now v raw),
              vacancy_skills := sk }) := by
  unfold save_vacancy_txn
  rw [optConvert_eq, optConvert_eq]
  simp only [bind, Except.bind, vacancyRowOf]
  cases hsk : insertSkills v.id v.key_skills
      (db.vacancy_skills.filter (fun r => r.vacancy_id ≠ v.id)) <;> rfl

/-- The plain-`INSERT` loop succeeds when the inserted names are distinct and
none of them is already present for this vacancy id, and then appends one row
per skill in order. -/
theorem insertSkills_ok (vid : String) :
    ∀ (skills : List KeySkill) (tbl : List SkillRow),
      (skills.map (fun s => s.name)).Nodup →
      (∀ s, s ∈ skills → ∀ r, r ∈ tbl →
        ¬ (r.vacancy_id = vid ∧ r.skill_name = s.name)) →
      insertSkills vid skills tbl =
        Except.ok (tbl ++ skills.map (fun s => (⟨vid, s.name⟩ : SkillRow)))
  | [], tbl, _, _ => by simp [insertSkills]
  | s :: rest, tbl, hnd, hdisj => by
    unfold insertSkills
    have hany : tbl.any
        (fun r => decide (r.vacancy_id = vid ∧ r.skill_name = s.name)) = false := by
      rw [List.any_eq_false]
      intro r hr
      simp only [decide_eq_true_eq]
      exact hdisj s (List.mem_cons_self s rest) r hr
    rw [hany]
    simp only [Bool.false_eq_true, if_false]
    rw [List.map_cons, List.nodup_cons] at hnd
    obtain ⟨hnotmem, hnd'⟩ := hnd
    have hdisj' : ∀ t, t ∈ rest → ∀ r, r ∈ tbl ++ [(⟨vid, s.name⟩ : SkillRow)] →
        ¬ (r.vacancy_id = vid ∧ r.skill_name = t.name) := by
      intro t ht r hr
      rcases List.mem_append.mp hr with h | h
      · exact hdisj t (List.mem_cons_of_mem s ht) r h
      · rcases List.mem_singleton.mp h with rfl
        rintro ⟨-, hname⟩
        exact hnotmem (by
          simp only [List.mem_map]
          exact ⟨t, ht, hname.symm⟩)
    have hrec := insertSkills_ok vid rest (tbl ++ [(⟨vid, s.name⟩ : SkillRow)])
      hnd' hdisj'
    rw [hrec]
    simp

/-- Successful `save_vacancy`: employer upserted, vacancy row upserted, skill
rows for this id replaced by the record's list, no exception. -/
theorem save_vacancy_ok (b : Backends) (now : Nat) (db : DB) (v : Vacancy)
    (raw : Option String)
    (h : (v.key_skills.map (fun s => s.name)).Nodup) :
    save_vacancy b now db v raw =
      ({ employers := insertOrReplaceEmployer db.employers (employerRowOf v.employer),
         vacancies := insertOrReplaceVacancy db.vacancies (vacancyRowOf b now v raw),
         vacancy_skills :=
           db.vacancy_skills.filter (fun r => r.vacancy_id ≠ v.id) ++
             v.key_skills.map (fun s => (⟨v.id, s.name⟩ : SkillRow)) }, none) := by
  have hdisj : ∀ s, s ∈ v.key_skills → ∀ r,
      r ∈ db.vacancy_skills.filter (fun r => r.vacancy_id ≠ v.id) →
      ¬ (r.vacancy_id = v.id ∧ r.skill_name = s.name) := by
    intro s _ r hr
    rintro ⟨hid, -⟩
    have := List.of_mem_filter hr
    simp only [decide_eq_true_eq] at this
    exact this hid
  have hins := insertSkills_ok v.id v.key_skills
    (db.vacancy_skills.filter (fun r => r.vacancy_id ≠ v.id)) h hdisj
  simp only [save_vacancy, save_employer]
  rw [save_vacancy_txn_eq]
  simp only [hins, Except.map]

/-- Rows surviving a key-filter never match the key afterwards. -/
theorem filter_ne_filter_eq {α : Type} (key : α → String) (k : String)
    (tbl : List α) :
    (tbl.filter (fun x => key x ≠ k)).filter (fun x => key x = k) = [] := by
  rw [List.filter_filter]
  apply List.filter_eq_nil_iff.mpr
  intro a _
  by_cases h : key a = k <;> simp [h]

/-- Vacancy rows with the stored row's id after an upsert: exactly that row. -/
theorem upsertVacancy_filter (tbl : List VacancyRow) (r : VacancyRow)
    (k : String) (hk : r.id = k) :
    (insertOrReplaceVacancy tbl r).filter (fun x => x.id = k) = [r] := by
  subst hk
  exact filter_upsert (fun x => x.id) tbl r

/-- Employer rows with the stored row's id after an upsert: exactly that row. -/
theorem upsertEmployer_filter (tbl : List EmployerRow) (r : EmployerRow)
    (k : String) (hk : r.id = k) :
    (insertOrReplaceEmployer tbl r).filter (fun x => x.id = k) = [r] := by
  subst hk
  exact filter_upsert (fun x => x.id) tbl r

/-- The vacancies table after a successful save. -/
theorem save_vacancy_fst_vacancies (b : Backends) (n : Nat) (db : DB)
    (v : Vacancy) (raw : Option String)
    (h : (v.key_skills.map (fun s => s.name)).Nodup) :
    (save_vacancy b n db v raw).1.vacancies =
      insertOrReplaceVacancy db.vacancies (vacancyRowOf b n v raw) := by
  rw [save_vacancy_ok b n db v raw h]

/-- The employers table after a successful save. -/
theorem save_vacancy_fst_employers (b : Backends) (n : Nat) (db : DB)
    (v : Vacancy) (raw : Option String)
    (h : (v.key_skills.map (fun s => s.name)).Nodup) :
    (save_vacancy b n db v raw).1.employers =
      insertOrReplaceEmployer db.employers (employerRowOf v.employer) := by
  rw [save_vacancy_ok b n db v raw h]

/-- The skills table after a successful save: delete-then-insert. -/
theorem save_vacancy_fst_skills (b : Backends) (n : Nat) (db : DB)
    (v : Vacancy) (raw : Option String)
    (h : (v.key_skills.map (fun s => s.name)).Nodup) :
    (save_vacancy b n db v raw).1.vacancy_skills =
      db.vacancy_skills.filter (fun r => r.vacancy_id ≠ v.id) ++
        v.key_skills.map (fun s => (⟨v.id, s.name⟩ : SkillRow)) := by
  rw [save_vacancy_ok b n db v raw h]

/-- After a successful save, the skill rows carrying this vacancy id are
exactly the record's skills, in order. -/
theorem skills_after_save (b : Backends) (n : Nat) (db : DB) (v : Vacancy)
    (raw : Option String)
    (h : (v.key_skills.map (fun s => s.name)).Nodup) :
    (save_vacancy b n db v raw).1.vacancy_skills.filter
        (fun r => r.vacancy_id = v.id) =
      v.key_skills.map (fun s => (⟨v.id, s.name⟩ : SkillRow)) := by
  rw [save_vacancy_fst_skills b n db v raw h, List.filter_append,
    filter_ne_filter_eq (fun r => r.vacancy_id) v.id db.vacancy_skills]
  rw [List.nil_append]
  apply List.filter_eq_self.mpr
  intro r hr
  rcases List.mem_map.mp hr with ⟨s, -, rfl⟩
  simp

/-- After a successful save, skill rows of other vacancy ids are untouched. -/
theorem skills_other_preserved (b : Backends) (n : Nat) (db : DB) (v : Vacancy)
    (raw : Option String)
    (h : (v.key_skills.map (fun s => s.name)).Nodup) :
    (save_vacancy b n db v raw).1.vacancy_skills.filter
        (fun r => r.vacancy_id ≠ v.id) =
      db.vacancy_skills.filter (fun r => r.vacancy_id ≠ v.id) := by
  rw [save_vacancy_fst_skills b n db v raw h, List.filter_append]
  have h1 : (v.key_skills.map (fun s => (⟨v.id, s.name⟩ : SkillRow))).filter
      (fun r => r.vacancy_id ≠ v.id) = [] := by
    apply List.filter_eq_nil_iff.mpr
    intro r hr
    rcases List.mem_map.mp hr with ⟨s, -, rfl⟩
    simp
  have h2 : (db.vacancy_skills.filter (fun r => r.vacancy_id ≠ v.id)).filter
      (fun r => r.vacancy_id ≠ v.id) =
      db.vacancy_skills.filter (fun r => r.vacancy_id ≠ v.id) := by
    apply List.filter_eq_self.mpr
    intro r hr
    exact (List.mem_filter.mp hr).2
  rw [h1, h2, List.append_nil]

/-- The request log of the sequential loop lists exactly the input ids. -/
theorem runLoop_requests (b : Backends) (now : Nat)
    (remote : String → List FetchResponse) :
    ∀ (l : List String) (st : FetchState),
      ((runLoop b now remote l st).2.2.1).map Prod.fst = l
  | [], _ => rfl
  | vid :: rest, st => by
    have ih := runLoop_requests b now remote rest
      (process_vacancy b now st vid (remote vid)).2.2
    simp [runLoop, ih]

/-- Python `start_index or 0` is the identity on the supplied value. -/
theorem pyOrInt_some_zero (x : Int) : pyOrInt (some x) 0 = x := by
  by_cases h : x = 0 <;> simp [pyOrInt, h]

/-- Python `end_index or n` with a nonzero supplied value keeps the value. -/
theorem pyOrInt_some_ne (x d : Int) (h : x ≠ 0) : pyOrInt (some x) d = x := by
  simp [pyOrInt, h]

/-- Python `n or n` yields `n` whether or not `n` is zero. -/
theorem pyOrInt_some_self (d : Int) : pyOrInt (some d) d = d := by
  by_cases h : d = 0 <;> simp [pyOrInt, h]

/-- Python `0 or d` yields the default. -/
theorem pyOrInt_some_zero_arg (d : Int) : pyOrInt (some 0) d = d := by
  simp [pyOrInt]

/-! ## Claim theorems -/

/-- C1: saving a validated vacancy twice with the same id and identical
content leaves exactly one row in the vacancies table and one employer row
with that id, and saving the same id again with changed content replaces all
column values of that row (the rows with that id become exactly the row built
from the new record) without creating a duplicate row. -/
theorem save_vacancy_replace_not_append
    (b : Backends) (n1 n2 n3 : Nat) (db : DB) (v vNew : Vacancy)
    (raw rawNew : Option String)
    (h : (v.key_skills.map (fun s => s.name)).Nodup)
    (hNew : (vNew.key_skills.map (fun s => s.name)).Nodup)
    (hid : vNew.id = v.id) :
    (((save_vacancy b n2 (save_vacancy b n1 db v raw).1 v raw).1.vacancies.filter
        (fun r => r.id = v.id)).length = 1) ∧
    (((save_vacancy b n2 (save_vacancy b n1 db v raw).1 v raw).1.employers.filter
        (fun r => r.id = v.employer.id)).length = 1) ∧
    ((save_vacancy b n3
        (save_vacancy b n2 (save_vacancy b n1 db v raw).1 v raw).1
        vNew rawNew).1.vacancies.filter (fun r => r.id = v.id) =
      [vacancyRowOf b n3 vNew rawNew]) := by
  refine ⟨?_, ?_, ?_⟩
  · rw [save_vacancy_fst_vacancies b n2 _ v raw h, upsertVacancy_filter]
    · rfl
    · rfl
  · rw [save_vacancy_fst_employers b n2 _ v raw h, upsertEmployer_filter]
    · rfl
    · rfl
  · rw [save_vacancy_fst_vacancies b n3 _ vNew rawNew hNew,
      upsertVacancy_filter]
    exact hid

/-- Witness for C1: two identical saves of the `Python` record followed by a
changed save (`Go`, `Rust`) under the same id `v2`. -/
theorem save_vacancy_replace_not_append_witness :
    (((save_vacancy bTest 2 (save_vacancy bTest 1 emptyDB vacPy none).1 vacPy
        none).1.vacancies.filter (fun r => r.id = vacPy.id)).length = 1) ∧
    (((save_vacancy bTest 2 (save_vacancy bTest 1 emptyDB vacPy none).1 vacPy
        none).1.employers.filter
        (fun r => r.id = vacPy.employer.id)).length = 1) ∧
    ((save_vacancy bTest 3
        (save_vacancy bTest 2 (save_vacancy bTest 1 emptyDB vacPy none).1
          vacPy none).1
        vacGoRust none).1.vacancies.filter (fun r => r.id = vacPy.id) =
      [vacancyRowOf bTest 3 vacGoRust none]) :=
  save_vacancy_replace_not_append bTest 1 2 3 emptyDB vacPy vacGoRust none none
    (by decide) (by decide) rfl

/-- C2: `save_vacancy` deletes all prior skill rows of the vacancy id and
inserts one row per skill of the new record, leaving other ids' rows
untouched; concretely, re-processing id `v2` from skills `["Python"]` to
`["Go", "Rust"]` leaves exactly the rows `(v2, Go)` and `(v2, Rust)` and no
`Python` row. -/
theorem save_vacancy_skill_set_replacement
    (b : Backends) (n : Nat) (db : DB) (v : Vacancy) (raw : Option String)
    (h : (v.key_skills.map (fun s => s.name)).Nodup) :
    ((save_vacancy b n db v raw).1.vacancy_skills.filter
        (fun r => r.vacancy_id = v.id) =
      v.key_skills.map (fun s => (⟨v.id, s.name⟩ : SkillRow))) ∧
    ((save_vacancy b n db v raw).1.vacancy_skills.filter
        (fun r => r.vacancy_id ≠ v.id) =
      db.vacancy_skills.filter (fun r => r.vacancy_id ≠ v.id)) ∧
    ((save_vacancy bTest 1
        (save_vacancy bTest 0 emptyDB vacPy none).1
        vacGoRust none).1.vacancy_skills =
      [⟨"v2", "Go"⟩, ⟨"v2", "Rust"⟩]) ∧
    (((save_vacancy bTest 1
        (save_vacancy bTest 0 emptyDB vacPy none).1
        vacGoRust none).1.vacancy_skills.contains ⟨"v2", "Python"⟩) = false) :=
  ⟨skills_after_save b n db v raw h, skills_other_preserved b n db v raw h,
    by decide, by decide⟩

/-- Witness for C2 at the `Go`/`Rust` record on the empty store. -/
theorem save_vacancy_skill_set_replacement_witness :
    ((save_vacancy bTest 5 emptyDB vacGoRust none).1.vacancy_skills.filter
        (fun r => r.vacancy_id = vacGoRust.id) =
      vacGoRust.key_skills.map
        (fun s => (⟨vacGoRust.id, s.name⟩ : SkillRow))) ∧
    ((save_vacancy bTest 5 emptyDB vacGoRust none).1.vacancy_skills.filter
        (fun r => r.vacancy_id ≠ vacGoRust.id) =
      emptyDB.vacancy_skills.filter
        (fun r => r.vacancy_id ≠ vacGoRust.id)) ∧
    ((save_vacancy bTest 1
        (save_vacancy bTest 0 emptyDB vacPy none).1
        vacGoRust none).1.vacancy_skills =
      [⟨"v2", "Go"⟩, ⟨"v2", "Rust"⟩]) ∧
    (((save_vacancy bTest 1
        (save_vacancy bTest 0 emptyDB vacPy none).1
        vacGoRust none).1.vacancy_skills.contains ⟨"v2", "Python"⟩) = false) :=
  save_vacancy_skill_set_replacement bTest 5 emptyDB vacGoRust none (by decide)

/-- C10: a record whose `key_skills` repeats a name is accepted by the
validator, `save_vacancy` on it raises (the UNIQUE(vacancy_id, skill_name)
constraint rejects the second plain INSERT), the vacancy-row write of the
transaction is rolled back, and the employer row, committed earlier on its
own connection, remains in the store. -/
theorem duplicate_skill_insert_raises_keeps_employer :
    parseVacancy (payloadOf vacDup) = Except.ok vacDup ∧
    (save_vacancy bTest 7 emptyDB vacDup none).2 =
      some "UNIQUE constraint failed: vacancy_skills" ∧
    (save_vacancy bTest 7 emptyDB vacDup none).1 =
      ⟨[employerRowOf vacDup.employer], [], []⟩ :=
  ⟨rfl, by decide, by decide⟩

/-- C3: a resume-enabled run (no explicit range or cap) selects exactly the
candidate ids not already present in the store, in list order, and its
network-request log covers exactly those ids — zero requests for present
ids; concretely, with store contents A and B and candidates A,B,C,D, exactly
C and D are fetched, once each. -/
theorem run_resume_skips_present_ids
    (b : Backends) (now : Nat) (remote : String → List FetchResponse)
    (ids : List String) (db : DB) :
    (runSelected b now remote ids db true none none none =
      some (filter_new_vacancies db ids)) ∧
    ((runRequests b now remote ids db true none none none).map
        (fun l => l.map Prod.fst) = some (filter_new_vacancies db ids)) ∧
    (filter_new_vacancies db ids =
      ids.filter
        (fun vid => !((db.vacancies.map (fun r => r.id)).contains vid))) ∧
    (runSelected bTest 0 remoteOkAll ["A", "B", "C", "D"] dbAB true
        none none none = some ["C", "D"]) ∧
    (runRequests bTest 0 remoteOkAll ["A", "B", "C", "D"] dbAB true
        none none none = some [("C", 1), ("D", 1)]) := by
  refine ⟨rfl, ?_, ?_, by decide, by decide⟩
  · show some ((runLoop b now remote (filter_new_vacancies db ids)
        ⟨db, []⟩).2.2.1.map Prod.fst) = some (filter_new_vacancies db ids)
    exact congrArg some
      (runLoop_requests b now remote (filter_new_vacancies db ids) ⟨db, []⟩)
  · unfold filter_new_vacancies get_processed_vacancy_ids
    apply List.filter_congr
    intro vid _
    cases h : (db.vacancies.map (fun r => r.id)).contains vid <;> simp [h]

/-- C5 counterexample: on the response stream 429, 429, 429, 200 the fetch of
one id makes four requests — more than the two a retry-once policy would
allow, so the per-id request count is not bounded by the claimed single
retry. -/
theorem fetch_vacancy_retry_once_counterexample :
    fetch_vacancy [FetchResponse.rateLimited, FetchResponse.rateLimited,
        FetchResponse.rateLimited, FetchResponse.ok (payOf "1")] =
      (some (payOf "1"), 4) ∧ 2 < 4 :=
  ⟨rfl, by decide⟩

/-- C5 amended: on 429 the fetcher waits and retries the same id recursively
without bound: after k consecutive 429 responses followed by a non-429
response it has made k + 1 requests and returns that response's result, and
on a stream of k straight 429s it makes k requests without returning a
result — termination only comes from the remote eventually not answering
429. -/
theorem fetch_vacancy_429_retry_behavior (k : Nat) (r : FetchResponse)
    (rest : List FetchResponse) (h : r ≠ FetchResponse.rateLimited) :
    (fetch_vacancy (List.replicate k FetchResponse.rateLimited ++ r :: rest) =
      ((fetch_vacancy (r :: rest)).1, k + 1)) ∧
    (fetch_vacancy (List.replicate k FetchResponse.rateLimited) =
      (none, k)) := by
  induction k with
  | zero =>
    refine ⟨?_, rfl⟩
    simp only [List.replicate, List.nil_append]
    cases r with
    | ok p => rfl
    | notFound => rfl
    | rateLimited => exact absurd rfl h
    | otherStatus c => rfl
    | timeout => rfl
  | succ n ih =>
    refine ⟨?_, ?_⟩
    · simp [List.replicate_succ, fetch_vacancy, ih.1]
    · simp [List.replicate_succ, fetch_vacancy, ih.2]

/-- Witness for the amended C5 at three consecutive 429s before a 404. -/
theorem fetch_vacancy_429_retry_behavior_witness :
    (fetch_vacancy (List.replicate 3 FetchResponse.rateLimited ++
        FetchResponse.notFound :: []) =
      ((fetch_vacancy (FetchResponse.notFound :: [])).1, 3 + 1)) ∧
    (fetch_vacancy (List.replicate 3 FetchResponse.rateLimited) =
      (none, 3)) :=
  fetch_vacancy_429_retry_behavior 3 FetchResponse.notFound [] (by decide)

/-- C6 counterexample: the final report does not distinguish not-found from
failure — a batch whose second id yields 404 and a batch whose second id
yields a validation failure produce the identical report of one success and
one failure; there is no separate not-found count. -/
theorem run_report_merges_not_found_into_failed :
    (runReport bTest 0 remote404 ["1", "2"] emptyDB true none none none =
      some (1, 1)) ∧
    (runReport bTest 0 remoteInvalid ["1", "2"] emptyDB true none none none =
      some (1, 1)) :=
  ⟨by decide, by decide⟩

/-- C6 amended: a 404 id produces no row in the store and does not prevent
other ids of the batch from being processed, but it is counted in the single
"failed" counter: the scenario of the claim stores exactly the row for id 1,
reports one success and one failure, writes no failed-record artifact, and
with the 404 id first the valid id is still processed. -/
theorem run_404_nonfatal_counted_as_failed :
    ((runStore bTest 0 remote404 ["1", "2"] emptyDB true none none none).map
        (fun db => db.vacancies.map (fun r => r.id)) = some ["1"]) ∧
    (runReport bTest 0 remote404 ["1", "2"] emptyDB true none none none =
      some (1, 1)) ∧
    ((runStore bTest 0 remote404 ["2", "1"] emptyDB true none none none).map
        (fun db => db.vacancies.map (fun r => r.id)) = some ["1"]) ∧
    (runFailedStore bTest 0 remote404 ["1", "2"] emptyDB true none none none =
      some []) :=
  ⟨by decide, by decide, by decide, by decide⟩

/-- C8: a fetched payload that fails validation is side-stored as an
artifact holding the offending id, the raw payload, the error text and the
timestamp, writes nothing to the database, and the remaining ids of the
batch are processed normally (batch of 1,2,3 with 2 invalid stores rows for
1 and 3 and reports two successes, one failure). -/
theorem validation_failure_side_stored
    (b : Backends) (now : Nat) (st : FetchState) (vid : String)
    (p : RawPayload) (e : String)
    (h : parseVacancy p = Except.error e) :
    (process_vacancy b now st vid [FetchResponse.ok p] =
      (false, 1, ⟨st.db, st.failed ++ [⟨vid, e, now, p⟩]⟩)) ∧
    ((runStore bTest 0 remoteMix ["1", "2", "3"] emptyDB true
        none none none).map (fun db => db.vacancies.map (fun r => r.id)) =
      some ["1", "3"]) ∧
    (runFailedStore bTest 0 remoteMix ["1", "2", "3"] emptyDB true
        none none none =
      some [⟨"2", "field required: experience", 0, badPayload⟩]) ∧
    (runReport bTest 0 remoteMix ["1", "2", "3"] emptyDB true none none none =
      some (2, 1)) := by
  refine ⟨?_, by decide, by decide, by decide⟩
  simp [process_vacancy, fetch_vacancy, h, save_failed_vacancy]

/-- Witness for C8 at the payload missing its `experience` sub-object. -/
theorem validation_failure_side_stored_witness :
    (process_vacancy bTest 0 ⟨emptyDB, []⟩ "2" [FetchResponse.ok badPayload] =
      (false, 1,
        ⟨emptyDB, [] ++ [⟨"2", "field required: experience", 0,
          badPayload⟩]⟩)) ∧
    ((runStore bTest 0 remoteMix ["1", "2", "3"] emptyDB true
        none none none).map (fun db => db.vacancies.map (fun r => r.id)) =
      some ["1", "3"]) ∧
    (runFailedStore bTest 0 remoteMix ["1", "2", "3"] emptyDB true
        none none none =
      some [⟨"2", "field required: experience", 0, badPayload⟩]) ∧
    (runReport bTest 0 remoteMix ["1", "2", "3"] emptyDB true none none none =
      some (2, 1)) :=
  validation_failure_side_stored bTest 0 ⟨emptyDB, []⟩ "2" badPayload
    "field required: experience" rfl

/-- C4 counterexample: an explicitly supplied `end = 0` does not raise —
because `end_index or len` treats 0 as unsupplied — even though it is both
`end = 0` and `end < start` here: the run proceeds (no error) and processes
the slice `[1:len]`. -/
theorem end_zero_not_rejected_counterexample :
    runSelected bTest 0 remoteNF ["x", "y"] emptyDB true none (some 1)
      (some 0) = some ["y"] := by
  decide

/-- C4 amended: with an explicit sub-range the run raises a descriptive
error before any fetch when start is outside [0, N-1] or when a nonzero end
satisfies end < start or end > N; an explicit end = 0 is instead treated as
if end were unsupplied (defaulting to N); and start = 0, end = N with N > 0
selects all N ids. -/
theorem run_range_validation_amended
    (b : Backends) (now : Nat) (remote : String → List FetchResponse)
    (ids : List String) (db : DB) (resume : Bool) (mv : Option Nat)
    (s e : Int) (eo : Option Int) :
    ((s < 0 ∨ (ids.length : Int) ≤ s) →
      run b now remote ids db resume mv (some s) eo =
        Except.error "start_index out of range") ∧
    (0 ≤ s → s < (ids.length : Int) → e ≠ 0 →
      (e < s ∨ (ids.length : Int) < e) →
      run b now remote ids db resume mv (some s) (some e) =
        Except.error "end_index must be >= start_index and <= list length") ∧
    (run b now remote ids db resume mv (some s) (some 0) =
      run b now remote ids db resume mv (some s)
        (some (ids.length : Int))) ∧
    (0 < ids.length →
      runSelected b now remote ids db false none (some 0)
        (some (ids.length : Int)) = some ids) := by
  refine ⟨?_, ?_, ?_, ?_⟩
  · intro hbad
    have hc : (decide (s < 0) || decide (s ≥ (ids.length : Int))) = true := by
      rcases hbad with h | h
      · simp [h]
      · simp [ge_iff_le, h]
    simp [run, pyOrInt_some_zero, hc, bind, Except.bind]
  · intro h0 h1 h2 h3
    have hc1 : (decide (s < 0) || decide (s ≥ (ids.length : Int))) = false := by
      have hna : ¬ s < 0 := not_lt.mpr h0
      have hnb : ¬ s ≥ (ids.length : Int) := not_le.mpr h1
      simp [hna, hnb]
    have hc2 : (decide (e < s) || decide (e > (ids.length : Int))) = true := by
      rcases h3 with h | h
      · simp [h]
      · simp [gt_iff_lt, h]
    simp [run, pyOrInt_some_zero, pyOrInt_some_ne e _ h2, hc1, hc2, bind,
      Except.bind]
  · have h1 : pyOrInt (some 0) ((ids.length : Int)) = (ids.length : Int) :=
      pyOrInt_some_zero_arg _
    have h2 : pyOrInt (some ((ids.length : Int))) ((ids.length : Int)) =
        (ids.length : Int) := pyOrInt_some_self _
    simp [run, h1, h2]
  · intro hlen
    have hna : ¬ (0 : Int) < 0 := by omega
    have hnb : ¬ (0 : Int) ≥ (ids.length : Int) := by
      simp only [ge_iff_le, not_le]
      exact_mod_cast hlen
    have hnc : ¬ (ids.length : Int) < 0 := by omega
    have hnd : ¬ (ids.length : Int) > (ids.length : Int) := by omega
    simp [runSelected, run, pyOrInt_some_zero, pyOrInt_some_self, hna, hnb,
      hnc, hnd, bind, Except.bind, Except.toOption, List.take_length]

/-- Witness for the amended C4 on the two-element candidate list. -/
theorem run_range_validation_amended_witness :
    (run bTest 0 remoteNF ["x", "y"] emptyDB true none (some 5) none =
      Except.error "start_index out of range") ∧
    (run bTest 0 remoteNF ["x", "y"] emptyDB true none (some 0) (some 7) =
      Except.error "end_index must be >= start_index and <= list length") ∧
    (run bTest 0 remoteNF ["x", "y"] emptyDB true none (some 1) (some 0) =
      run bTest 0 remoteNF ["x", "y"] emptyDB true none (some 1) (some 2)) ∧
    (runSelected bTest 0 remoteNF ["x", "y"] emptyDB false none (some 0)
      (some 2) = some ["x", "y"]) := by
  refine ⟨?_, ?_, ?_, ?_⟩
  · exact (run_range_validation_amended bTest 0 remoteNF ["x", "y"] emptyDB
      true none 5 0 none).1 (by decide)
  · exact (run_range_validation_amended bTest 0 remoteNF ["x", "y"] emptyDB
      true none 0 7 none).2.1 (by decide) (by decide) (by decide) (by decide)
  · exact (run_range_validation_amended bTest 0 remoteNF ["x", "y"] emptyDB
      true none 1 0 none).2.2.1
  · exact (run_range_validation_amended bTest 0 remoteNF ["x", "y"] emptyDB
      true none 0 0 none).2.2.2 (by decide)

/-- C7 counterexample: `convert_html_to_markdown` does raise on some input —
an unknown method name hits the explicit `raise ValueError` branch. -/
theorem convert_unknown_method_raises :
    convert_html_to_markdown bTest "x" "bogus" =
      Except.error "Unknown method: bogus" := rfl

/-- C7 amended: conversion never raises on the four known methods ("auto"
returns the backend rendering, empty input returns "", an unavailable
backend returns the original text unmodified), and in the store path the
markdown column is null exactly when the description is absent or empty —
otherwise it always carries the auto conversion; `save_vacancy` itself never
raises through conversion (only the skill INSERT can raise). An unknown
method name raises `ValueError`, and no code path stores the original HTML
with a null markdown column after a conversion failure. -/
theorem convert_total_on_known_methods
    (b : Backends) (t m : String) (f : String → String) (now : Nat) (db : DB)
    (v : Vacancy) (raw : Option String) (d : String) :
    (convert_html_to_markdown b t "auto" =
      Except.ok (if t = "" then "" else autoConvert b t)) ∧
    (convert_html_to_markdown b "" m = Except.ok "") ∧
    (t ≠ "" → convert_html_to_markdown ⟨none, none, f⟩ t "html2text" =
      Except.ok t) ∧
    ((v.key_skills.map (fun s => s.name)).Nodup → v.description = none →
      ((save_vacancy b now db v raw).1.vacancies.filter
          (fun r => r.id = v.id)).map (fun r => r.description_markdown) =
        [none]) ∧
    ((v.key_skills.map (fun s => s.name)).Nodup → v.description = some d →
      d ≠ "" →
      ((save_vacancy b now db v raw).1.vacancies.filter
          (fun r => r.id = v.id)).map (fun r => r.description_markdown) =
        [some (autoConvert b d)]) ∧
    ((v.key_skills.map (fun s => s.name)).Nodup →
      (save_vacancy b now db v raw).2 = none) := by
  refine ⟨convert_auto_ok b t, rfl, ?_, ?_, ?_, ?_⟩
  · intro h
    simp [convert_html_to_markdown, html_to_markdown_html2text, h]
  · intro hnd hdesc
    rw [save_vacancy_fst_vacancies b now db v raw hnd, upsertVacancy_filter]
    · simp [vacancyRowOf, mkVacancyRow, mdOf, hdesc]
    · rfl
  · intro hnd hdesc hne
    rw [save_vacancy_fst_vacancies b now db v raw hnd, upsertVacancy_filter]
    · simp [vacancyRowOf, mkVacancyRow, mdOf, hdesc, hne]
    · rfl
  · intro hnd
    rw [save_vacancy_ok b now db v raw hnd]

/-- Witness for the amended C7 on concrete inputs (with and without a
description). -/
theorem convert_total_on_known_methods_witness :
    (convert_html_to_markdown bTest "x" "auto" =
      Except.ok (if "x" = "" then "" else autoConvert bTest "x")) ∧
    (convert_html_to_markdown bTest "" "simple" = Except.ok "") ∧
    (convert_html_to_markdown ⟨none, none, fun s => s⟩ "x" "html2text" =
      Except.ok "x") ∧
    (((save_vacancy bTest 0 emptyDB vacBase none).1.vacancies.filter
        (fun r => r.id = vacBase.id)).map (fun r => r.description_markdown) =
      [none]) ∧
    (((save_vacancy bTest 0 emptyDB vacDesc none).1.vacancies.filter
        (fun r => r.id = vacDesc.id)).map (fun r => r.description_markdown) =
      [some (autoConvert bTest "x")]) ∧
    ((save_vacancy bTest 0 emptyDB vacBase none).2 = none) := by
  have h1 := convert_total_on_known_methods bTest "x" "simple" (fun s => s) 0
    emptyDB vacBase none "x"
  have h2 := convert_total_on_known_methods bTest "x" "simple" (fun s => s) 0
    emptyDB vacDesc none "x"
  exact ⟨h1.1, h1.2.1, h1.2.2.1 (by decide), h1.2.2.2.1 (by decide) rfl,
    h2.2.2.2.2.1 (by decide) rfl (by decide), h1.2.2.2.2.2 (by decide)⟩

/-- C9 counterexample: with an explicit `max_vacancies = 0` the cap is not
applied (Python `if max_vacancies:` treats 0 as unsupplied): the run
processes the whole list instead of the first 0 elements. -/
theorem max_zero_not_applied_counterexample :
    (runSelected bTest 0 remoteNF ["1"] emptyDB true (some 0) none none =
      some ["1"]) ∧
    some ["1"] ≠ some (List.take 0 ["1"]) :=
  ⟨by decide, by decide⟩

/-- C9 amended: for a positive `max_vacancies` the cap is applied last —
after range selection and after resume filtering — so the processed ids are
the first `m` of the resume-filtered slice; an explicit cap of 0 is treated
as no cap. -/
theorem max_cap_after_range_and_resume
    (b : Backends) (now : Nat) (remote : String → List FetchResponse)
    (ids : List String) (db : DB) (m s e : Nat)
    (hm : 0 < m) (hs : s < ids.length) (hse : s ≤ e) (he : e ≤ ids.length)
    (he0 : 0 < e) :
    (runSelected b now remote ids db true (some m) (some (s : Int))
        (some (e : Int)) =
      some ((filter_new_vacancies db ((ids.drop s).take (e - s))).take m)) ∧
    (runSelected b now remote ids db true (some m) none none =
      some ((filter_new_vacancies db ids).take m)) := by
  have hm' : m ≠ 0 := Nat.pos_iff_ne_zero.mp hm
  constructor
  · have hsInt : pyOrInt (some (s : Int)) 0 = (s : Int) := pyOrInt_some_zero _
    have heInt : pyOrInt (some (e : Int)) ((ids.length : Int)) = (e : Int) :=
      pyOrInt_some_ne _ _ (by exact_mod_cast he0.ne')
    have hna : ¬ (s : Int) < 0 := by omega
    have hnb : ¬ (s : Int) ≥ (ids.length : Int) := by
      simp only [ge_iff_le, not_le]
      exact_mod_cast hs
    have hnc : ¬ (e : Int) < (s : Int) := by exact_mod_cast not_lt.mpr hse
    have hnd : ¬ (e : Int) > (ids.length : Int) := by
      simp only [gt_iff_lt, not_lt]
      exact_mod_cast he
    have htn : ((e : Int) - (s : Int)).toNat = e - s := by omega
    simp [runSelected, run, hsInt, heInt, hna, hnb, hnc, hnd, htn, hm',
      bind, Except.bind, Except.toOption, Int.toNat_ofNat]
  · simp [runSelected, run, hm', bind, Except.bind, Except.toOption]

/-- Witness for the amended C9 at a three-element list, range [1, 3), cap 1. -/
theorem max_cap_after_range_and_resume_witness :
    (runSelected bTest 0 remoteNF ["a", "b", "c"] emptyDB true (some 1)
        (some 1) (some 3) =
      some ((filter_new_vacancies emptyDB
        (((["a", "b", "c"] : List String).drop 1).take (3 - 1))).take 1)) ∧
    (runSelected bTest 0 remoteNF ["a", "b", "c"] emptyDB true (some 1)
        none none =
      some ((filter_new_vacancies emptyDB ["a", "b", "c"]).take 1)) :=
  max_cap_after_range_and_resume bTest 0 remoteNF ["a", "b", "c"] emptyDB
    1 1 3 (by decide) (by decide) (by decide) (by decide) (by decide)

/-- C1 counterexample: the claim quantifies over every validated record, but
a validated record with a repeated skill name (the validator accepts it)
makes every `save_vacancy` call raise and roll back the vacancy transaction:
calling save twice with identical content leaves zero vacancy rows with that
id, not exactly one. -/
theorem save_twice_dup_skills_no_row_counterexample :
    parseVacancy (payloadOf vacDup) = Except.ok vacDup ∧
    ((save_vacancy bTest 2 (save_vacancy bTest 1 emptyDB vacDup none).1
        vacDup none).1.vacancies.filter (fun r => r.id = vacDup.id)).length =
      0 ∧
    (0 : Nat) ≠ 1 :=
  ⟨rfl, by decide, by decide⟩

/-- C2 counterexample: for a validated record with a repeated skill name the
skill INSERT raises and the whole transaction rolls back, so the prior skill
rows for that id survive and nothing is inserted — against the claimed
delete-then-insert effect: re-fetching id `v2` (skills `["Python"]`) with
the validated record carrying `["Go", "Go"]` leaves the `Python` row in
place and stores no `Go` row. -/
theorem skill_replacement_dup_name_counterexample :
    parseVacancy (payloadOf vacGoGo) = Except.ok vacGoGo ∧
    (save_vacancy bTest 1 (save_vacancy bTest 0 emptyDB vacPy none).1
        vacGoGo none).2 = some "UNIQUE constraint failed: vacancy_skills" ∧
    (save_vacancy bTest 1 (save_vacancy bTest 0 emptyDB vacPy none).1
        vacGoGo none).1.vacancy_skills = [⟨"v2", "Python"⟩] :=
  ⟨rfl, by decide, by decide⟩
